import Mathlib

/-!
Verification of the express-template repository.

Shallow embedding of the middleware and utility logic:
* `src/middlewares/corsConfig.ts` — the origin callback passed to `cors(...)`
  and the static CORS options (credentials, methods, allowedHeaders).
* `src/middlewares/errorHandler.ts` — the terminal error handler.
* `src/routes/health.ts` — the health endpoint handler.
* `src/utils/serverStartup.ts` — `getNetworkAddress`.

Environment values (`process.env.*`, `process.uptime()`, `new Date()`,
`os.networkInterfaces()`) are passed as explicit parameters.  JavaScript
truthiness is modelled faithfully: an absent env var or header is `none`,
`!s` on a string is true for the empty string, and `n || m` on numbers
skips `0`.
-/

/-- The flag `const isDevelopment = process.env.NODE_ENV !== "production"`,
read once at module load in both middleware files. -/
def isDevelopmentOf (nodeEnv : Option String) : Bool :=
  nodeEnv != some "production"

/-- Model of the JS builtin `String.prototype.split` with the one-character
separator `","`: accumulate the current segment (in reverse) and cut at
every comma.  `"".split(",")` is `[""]` and `",".split(",")` is
`["", ""]`, as in JS. -/
def splitCommaAux : List Char → List Char → List String
  | [], acc => [String.mk acc.reverse]
  | c :: rest, acc =>
    if c = ',' then String.mk acc.reverse :: splitCommaAux rest []
    else splitCommaAux rest (c :: acc)

/-- JS `s.split(",")` on a whole string. -/
def jsSplitComma (s : String) : List String := splitCommaAux s.data []

/-- The expression `process.env.ALLOWED_ORIGINS?.split(",") || []` from
`corsConfig.ts`.  When the variable is absent the optional chain yields
`undefined` and `|| []` produces the empty list; when it is present
(including the empty string, since an array is truthy) the comma split is
used. -/
def parseAllowedOrigins (allowedOriginsEnv : Option String) : List String :=
  match allowedOriginsEnv with
  | none => []
  | some s => jsSplitComma s

/-- The origin callback of `corsConfig.ts`, as a pure decision:
`true` = `callback(null, true)` (allow), `false` = `callback(new Error(...))`
(deny).  `allowedOriginsEnv` is the value of `process.env.ALLOWED_ORIGINS`
at the moment the callback runs, because the source reads it inside the
callback body, on every invocation.  `if (!origin)` is JS truthiness on a
`string | undefined`: it fires for `undefined` and for the empty string. -/
def corsOriginDecide (isDevelopment : Bool) (allowedOriginsEnv : Option String)
    (origin : Option String) : Bool :=
  match origin with
  | none => true
  | some o =>
    if o = "" then true
    else if isDevelopment then true
    else (parseAllowedOrigins allowedOriginsEnv).contains o

/-- The static option fields of the `cors({...})` call in `corsConfig.ts`. -/
structure CorsOptions where
  credentials : Bool
  methods : List String
  allowedHeaders : List String
  deriving DecidableEq

/-- The fields `credentials: true, methods: [...], allowedHeaders: [...]`
of the options object in `corsConfig.ts`. -/
def corsConfigOptions : CorsOptions :=
  { credentials := true
    methods := ["GET", "POST", "PUT", "DELETE", "PATCH", "OPTIONS"]
    allowedHeaders := ["Content-Type", "Authorization"] }

/-- The `ErrorWithStatus` interface of `errorHandler.ts`: an `Error`
(message, optional stack) with optional numeric `status` / `statusCode`
fields. -/
structure ErrorWithStatus where
  message : String
  stack : Option String
  status : Option Nat := none
  statusCode : Option Nat := none
  deriving DecidableEq

/-- JS `a || b` where `a : number | undefined`: `a` is kept iff it is
present and nonzero (`0` is falsy). -/
def jsOrNum (a : Option Nat) (b : Nat) : Nat :=
  match a with
  | none => b
  | some n => if n = 0 then b else n

/-- The line `const statusCode = err.status || err.statusCode || 500` from
`errorHandler.ts`. -/
def resolveStatus (err : ErrorWithStatus) : Nat :=
  jsOrNum err.status (jsOrNum err.statusCode 500)

/-- The JSON response produced by `errorHandler.ts`: HTTP status plus the
serialized body.  `stack = none` models the field being absent from the
JSON (a spread of `false`, or a `stack: undefined` property, serializes to
no field). -/
structure ErrorResponse where
  status : Nat
  success : Bool
  error : String
  stack : Option String
  deriving DecidableEq

/-- The `errorHandler` of `errorHandler.ts` as a function from the mode
flag and the failure to the response:
`res.status(statusCode).json({ success: false, error: isDevelopment ?
err.message : "Internal server error", ...(isDevelopment && { stack:
err.stack }) })`. -/
def errorHandler (isDevelopment : Bool) (err : ErrorWithStatus) : ErrorResponse :=
  { status := resolveStatus err
    success := false
    error := if isDevelopment then err.message else "Internal server error"
    stack := if isDevelopment then err.stack else none }

/-- The failure signaled by `corsConfig.ts` on deny:
`new Error("Not allowed by CORS")`.  A plain `Error` has a message and a
runtime-supplied stack, and no `status` or `statusCode` field. -/
def corsDenialFailure (stack : Option String) : ErrorWithStatus :=
  { message := "Not allowed by CORS", stack := stack }

/-- One entry of `os.networkInterfaces()[name]` as used by
`serverStartup.ts`: the `family`, `internal` and `address` fields. -/
structure NetworkInterfaceInfo where
  family : String
  internal : Bool
  address : String
  deriving DecidableEq

/-- The selection test of `getNetworkAddress`:
`net.family === "IPv4" && !net.internal`. -/
def isExternalIPv4 (net : NetworkInterfaceInfo) : Bool :=
  net.family == "IPv4" && !net.internal

/-- The inner `for (const net of interfaces[name] || [])` loop of
`getNetworkAddress`: first matching address of one interface, if any. -/
def scanNets : List NetworkInterfaceInfo → Option String
  | [] => none
  | net :: rest =>
    if isExternalIPv4 net then some net.address
    else scanNets rest

/-- The outer `for (const name of Object.keys(interfaces))` loop:
an early `return` inside the inner loop ends both loops. -/
def scanIfaces : List (String × List NetworkInterfaceInfo) → Option String
  | [] => none
  | (_, nets) :: rest =>
    match scanNets nets with
    | some a => some a
    | none => scanIfaces rest

/-- Function `getNetworkAddress` from `serverStartup.ts`.  `interfaces` is the
result of `os.networkInterfaces()` as an association list in the
enumeration order of `Object.keys`. -/
def getNetworkAddress (interfaces : List (String × List NetworkInterfaceInfo)) : String :=
  (scanIfaces interfaces).getD "localhost"

/-- A calendar timestamp with millisecond precision, the observable
content of a JS `Date` as printed by `toISOString`. -/
structure JsDateTime where
  year : Nat
  month : Nat
  day : Nat
  hour : Nat
  minute : Nat
  second : Nat
  millis : Nat
  deriving DecidableEq

/-- Field bounds under which a `JsDateTime` is a calendar date that
`Date.prototype.toISOString` prints in the plain 24-character
`YYYY-MM-DDTHH:mm:ss.sssZ` form. -/
def JsDateTime.InRange (t : JsDateTime) : Prop :=
  t.year < 10000 ∧ 1 ≤ t.month ∧ t.month ≤ 12 ∧ 1 ≤ t.day ∧ t.day ≤ 31 ∧
  t.hour < 24 ∧ t.minute < 60 ∧ t.second < 60 ∧ t.millis < 1000

instance (t : JsDateTime) : Decidable t.InRange := by
  unfold JsDateTime.InRange; infer_instance

/-- The decimal digit character for `d % 10`. -/
def digitChar (d : Nat) : Char := Char.ofNat (48 + d % 10)

/-- Zero-padded two-digit decimal rendering of `n < 100`. -/
def pad2 (n : Nat) : List Char := [digitChar (n / 10), digitChar n]

/-- Zero-padded three-digit decimal rendering of `n < 1000`. -/
def pad3 (n : Nat) : List Char := [digitChar (n / 100), digitChar (n / 10), digitChar n]

/-- Zero-padded four-digit decimal rendering of `n < 10000`. -/
def pad4 (n : Nat) : List Char :=
  [digitChar (n / 1000), digitChar (n / 100), digitChar (n / 10), digitChar n]

/-- Model of `new Date().toISOString()` (Node): the 24-character
`YYYY-MM-DDTHH:mm:ss.sssZ` rendering. -/
def toISOString (t : JsDateTime) : String :=
  String.mk (pad4 t.year ++ '-' :: pad2 t.month ++ '-' :: pad2 t.day ++
    'T' :: pad2 t.hour ++ ':' :: pad2 t.minute ++ ':' :: pad2 t.second ++
    '.' :: pad3 t.millis ++ ['Z'])

/-- Numeric value of a decimal digit character. -/
def digitVal (c : Char) : Nat := c.toNat - 48

/-- Whether `c` is a decimal digit character. -/
def isDigitCh (c : Char) : Bool := 48 ≤ c.toNat && c.toNat ≤ 57

/-- ISO-8601 parser, character-list level, for the 24-character
`YYYY-MM-DDTHH:mm:ss.sssZ` form: checks the separators, that every data
position is a decimal digit, and that the field values are in calendar
range; returns the parsed timestamp or `none`. -/
def parseISOChars : List Char → Option JsDateTime
  | [y1, y2, y3, y4, h1, mo1, mo2, h2, d1, d2, tc,
     ho1, ho2, c1, mi1, mi2, c2, se1, se2, dp, ms1, ms2, ms3, zc] =>
    if h1 = '-' ∧ h2 = '-' ∧ tc = 'T' ∧ c1 = ':' ∧ c2 = ':' ∧
       dp = '.' ∧ zc = 'Z' ∧
       [y1, y2, y3, y4, mo1, mo2, d1, d2, ho1, ho2,
        mi1, mi2, se1, se2, ms1, ms2, ms3].all isDigitCh = true then
      let t : JsDateTime :=
        { year := digitVal y1 * 1000 + digitVal y2 * 100 + digitVal y3 * 10 + digitVal y4
          month := digitVal mo1 * 10 + digitVal mo2
          day := digitVal d1 * 10 + digitVal d2
          hour := digitVal ho1 * 10 + digitVal ho2
          minute := digitVal mi1 * 10 + digitVal mi2
          second := digitVal se1 * 10 + digitVal se2
          millis := digitVal ms1 * 100 + digitVal ms2 * 10 + digitVal ms3 }
      if t.InRange then some t else none
    else none
  | _ => none

/-- ISO-8601 parser on strings. -/
def parseISODate (s : String) : Option JsDateTime := parseISOChars s.data

/-- The body of the health response from `routes/health.ts`:
`{ status: "ok", timestamp: new Date().toISOString(), uptime:
process.uptime() }`. -/
structure HealthBody where
  status : String
  timestamp : String
  uptime : ℚ
  deriving DecidableEq

/-- The `GET /health` handler of `routes/health.ts`, as a function of the
environment reads (`new Date()` and `process.uptime()`): HTTP status and
body of `res.status(200).json({...})`. -/
def healthHandler (now : JsDateTime) (uptime : ℚ) : Nat × HealthBody :=
  (200, { status := "ok", timestamp := toISOString now, uptime := uptime })

/-! ## Helper lemmas -/

theorem digitChar_isDigit (d : Nat) : isDigitCh (digitChar d) = true := by
  have haux : ∀ k, k < 10 → isDigitCh (Char.ofNat (48 + k)) = true := by decide
  exact haux (d % 10) (Nat.mod_lt d (by norm_num))

theorem digitVal_digitChar (d : Nat) : digitVal (digitChar d) = d % 10 := by
  have haux : ∀ k, k < 10 → digitVal (Char.ofNat (48 + k)) = k := by decide
  exact haux (d % 10) (Nat.mod_lt d (by norm_num))

/-- Round trip for the printer and parser: a timestamp in printable range
is recovered exactly by `parseISODate` from its `toISOString` rendering. -/
theorem parseISODate_toISOString (t : JsDateTime) (h : t.InRange) :
    parseISODate (toISOString t) = some t := by
  obtain ⟨y, mo, d, ho, mi, se, ms⟩ := t
  simp only [JsDateTime.InRange] at h
  obtain ⟨hy, hmo1, hmo2, hd1, hd2, hho, hmi, hse, hms⟩ := h
  have hdata : (toISOString ⟨y, mo, d, ho, mi, se, ms⟩).data =
      [digitChar (y / 1000), digitChar (y / 100), digitChar (y / 10), digitChar y, '-',
       digitChar (mo / 10), digitChar mo, '-', digitChar (d / 10), digitChar d, 'T',
       digitChar (ho / 10), digitChar ho, ':', digitChar (mi / 10), digitChar mi, ':',
       digitChar (se / 10), digitChar se, '.',
       digitChar (ms / 100), digitChar (ms / 10), digitChar ms, 'Z'] := rfl
  show parseISOChars _ = _
  rw [hdata]
  rw [parseISOChars]
  refine (if_pos ?_).trans ?_
  · exact ⟨rfl, rfl, rfl, rfl, rfl, rfl, rfl, by simp [digitChar_isDigit]⟩
  simp only [digitVal_digitChar]
  have e1 : y / 1000 % 10 * 1000 + y / 100 % 10 * 100 + y / 10 % 10 * 10 + y % 10 = y := by
    omega
  have e2 : mo / 10 % 10 * 10 + mo % 10 = mo := by omega
  have e3 : d / 10 % 10 * 10 + d % 10 = d := by omega
  have e4 : ho / 10 % 10 * 10 + ho % 10 = ho := by omega
  have e5 : mi / 10 % 10 * 10 + mi % 10 = mi := by omega
  have e6 : se / 10 % 10 * 10 + se % 10 = se := by omega
  have e7 : ms / 100 % 10 * 100 + ms / 10 % 10 * 10 + ms % 10 = ms := by omega
  simp only [e1, e2, e3, e4, e5, e6, e7]
  exact if_pos ⟨hy, hmo1, hmo2, hd1, hd2, hho, hmi, hse, hms⟩

theorem scanNets_eq_find (nets : List NetworkInterfaceInfo) :
    scanNets nets = (nets.find? isExternalIPv4).map (fun net => net.address) := by
  induction nets with
  | nil => rfl
  | cons net rest ih =>
    cases h : isExternalIPv4 net with
    | true => simp [scanNets, h, List.find?_cons_of_pos _ h]
    | false =>
      have h' : ¬ isExternalIPv4 net := by simp [h]
      simp [scanNets, h, List.find?_cons_of_neg _ h', ih]

theorem scanIfaces_eq_find (interfaces : List (String × List NetworkInterfaceInfo)) :
    scanIfaces interfaces =
      ((interfaces.map Prod.snd).flatten.find? isExternalIPv4).map
        (fun net => net.address) := by
  induction interfaces with
  | nil => rfl
  | cons p rest ih =>
    obtain ⟨name, nets⟩ := p
    rw [scanIfaces, scanNets_eq_find, ih]
    simp only [List.map_cons, List.flatten_cons, List.find?_append]
    cases nets.find? isExternalIPv4 <;> simp [Option.or]

/-! ## Claims -/

/-- C1 as frozen is refuted by the empty-string origin: in production mode
with `ALLOWED_ORIGINS` unset, the request origin `""` is present (a
string) and is not a member of the derived Allowed Origins Set (which is
empty), yet the evaluator allows it, because `if (!origin)` in
`corsConfig.ts` also fires on the empty string. -/
theorem C1_counterexample :
    corsOriginDecide false none (some "") = true ∧
    (parseAllowedOrigins none).contains "" = false := by decide

/-- C1 (amended): the Origin Policy Evaluator decides by rules in order:
a request whose origin is absent or the empty string is allowed in both
modes; in development mode every request is allowed; otherwise
(production mode, present non-empty origin) it allows iff the origin is a
member of the Allowed Origins Set derived from `ALLOWED_ORIGINS`, and
denies otherwise. -/
theorem C1_originPolicy_decision (isDev : Bool) (env : Option String) (o : String) :
    corsOriginDecide isDev env none = true ∧
    corsOriginDecide isDev env (some "") = true ∧
    corsOriginDecide true env (some o) = true ∧
    (o ≠ "" → corsOriginDecide false env (some o) =
      (parseAllowedOrigins env).contains o) := by
  refine ⟨rfl, by simp [corsOriginDecide], ?_, ?_⟩
  · by_cases ho : o = "" <;> simp [corsOriginDecide, ho]
  · intro ho
    simp [corsOriginDecide, ho]

/-- Witness for C1 at a concrete production request: with
`ALLOWED_ORIGINS=https://a.com,https://b.com`, the origin
`https://b.com` is allowed by membership. -/
theorem C1_witness :
    corsOriginDecide false (some "https://a.com,https://b.com") (some "https://b.com") =
      (parseAllowedOrigins (some "https://a.com,https://b.com")).contains "https://b.com" ∧
    (parseAllowedOrigins (some "https://a.com,https://b.com")).contains "https://b.com" = true :=
  ⟨(C1_originPolicy_decision false (some "https://a.com,https://b.com")
      "https://b.com").2.2.2 (by decide),
   by decide⟩

/-- C2: for every failure handled in production mode (the mode flag is
false), the response body is success `false`, the fixed generic string
`Internal server error` as the error field regardless of the real
message, and no stack field; and the status still comes from the failure:
a failure with status 404 is answered with 404. -/
theorem C2_errorHandler_production_body (err : ErrorWithStatus) :
    (errorHandler false err).success = false ∧
    (errorHandler false err).error = "Internal server error" ∧
    (errorHandler false err).stack = none ∧
    (err.status = some 404 → (errorHandler false err).status = 404) := by
  refine ⟨rfl, rfl, rfl, fun h => ?_⟩
  simp [errorHandler, resolveStatus, h, jsOrNum]

/-- Witness for C2 at the concrete failure of the spec example: status
404 and message X in production. -/
theorem C2_witness :
    (errorHandler false ⟨"X", some "trace", some 404, none⟩).error = "Internal server error" ∧
    (errorHandler false ⟨"X", some "trace", some 404, none⟩).stack = none ∧
    (errorHandler false ⟨"X", some "trace", some 404, none⟩).status = 404 :=
  ⟨(C2_errorHandler_production_body ⟨"X", some "trace", some 404, none⟩).2.1,
   (C2_errorHandler_production_body ⟨"X", some "trace", some 404, none⟩).2.2.1,
   (C2_errorHandler_production_body ⟨"X", some "trace", some 404, none⟩).2.2.2 rfl⟩

/-- C3 as frozen is refuted: the Allowed Origins Set is not derived once
at startup; `corsConfig.ts` reads `process.env.ALLOWED_ORIGINS` inside
the origin callback, so it is re-derived on every evaluation.  With the
same origin `https://good.com`, which the startup-time configuration
lists as allowed, the production decision flips from allow to deny when
only the request-time value of `ALLOWED_ORIGINS` differs — impossible if
the set were a startup-time constant. -/
theorem C3_counterexample :
    (parseAllowedOrigins (some "https://good.com")).contains "https://good.com" = true ∧
    corsOriginDecide false (some "https://good.com") (some "https://good.com") = true ∧
    corsOriginDecide false (some "https://other.com") (some "https://good.com") = false := by
  decide

/-- C3 (amended): the Allowed Origins Set is never mutated by request
handling, but it is derived anew from process configuration on each
evaluation: the production decision for a present non-empty origin equals
membership in the set parsed from the request-time value of
`ALLOWED_ORIGINS`. -/
theorem C3_allowedOrigins_requestTime (envAtRequest : Option String) (o : String)
    (ho : o ≠ "") :
    corsOriginDecide false envAtRequest (some o) =
      (parseAllowedOrigins envAtRequest).contains o := by
  simp [corsOriginDecide, ho]

/-- Witness for C3 at a concrete request-time configuration. -/
theorem C3_witness :
    corsOriginDecide false (some "https://good.com,https://b.com") (some "https://b.com") =
      (parseAllowedOrigins (some "https://good.com,https://b.com")).contains "https://b.com" :=
  C3_allowedOrigins_requestTime (some "https://good.com,https://b.com") "https://b.com"
    (by decide)

/-- C4 as frozen is refuted by a failure whose status field is the number
0: the field is present, but `err.status || err.statusCode || 500` in
`errorHandler.ts` skips it because 0 is falsy in JS, and the response
status is 500, not 0. -/
theorem C4_counterexample :
    (⟨"boom", none, some 0, none⟩ : ErrorWithStatus).status = some 0 ∧
    (errorHandler true ⟨"boom", none, some 0, none⟩).status = 500 ∧
    (errorHandler true ⟨"boom", none, some 0, none⟩).status ≠ 0 := by decide

/-- C4 (amended): the HTTP status of the response equals the status field
of the failure when it is present and nonzero; otherwise the statusCode
field when that is present and nonzero; otherwise 500. -/
theorem C4_statusResolution (isDev : Bool) (err : ErrorWithStatus) :
    (∀ n, err.status = some n → n ≠ 0 → (errorHandler isDev err).status = n) ∧
    ((err.status = none ∨ err.status = some 0) →
      ∀ m, err.statusCode = some m → m ≠ 0 → (errorHandler isDev err).status = m) ∧
    ((err.status = none ∨ err.status = some 0) →
      (err.statusCode = none ∨ err.statusCode = some 0) →
      (errorHandler isDev err).status = 500) := by
  refine ⟨?_, ?_, ?_⟩
  · intro n hn hnz
    simp [errorHandler, resolveStatus, hn, jsOrNum, hnz]
  · rintro (h | h) m hm hmz <;>
      simp [errorHandler, resolveStatus, h, hm, jsOrNum, hmz]
  · rintro (h | h) (h2 | h2) <;>
      simp [errorHandler, resolveStatus, h, h2, jsOrNum]

/-- Witness for C4 at concrete failures: a nonzero status wins over
statusCode, a zero status falls through to statusCode, and no usable
field yields 500. -/
theorem C4_witness :
    (errorHandler false ⟨"m", none, some 404, some 400⟩).status = 404 ∧
    (errorHandler false ⟨"m", none, some 0, some 503⟩).status = 503 ∧
    (errorHandler false ⟨"m", none, none, none⟩).status = 500 :=
  ⟨(C4_statusResolution false ⟨"m", none, some 404, some 400⟩).1 404 rfl (by decide),
   (C4_statusResolution false ⟨"m", none, some 0, some 503⟩).2.1 (Or.inr rfl) 503 rfl
     (by decide),
   (C4_statusResolution false ⟨"m", none, none, none⟩).2.2 (Or.inl rfl) (Or.inl rfl)⟩

/-- C5: for every failure handled in development mode (the mode flag is
true), the response body has success `false`, the error field equal to the
real message of the failure, and the stack field carrying the diagnostic
trace of the failure. -/
theorem C5_errorHandler_development_body (err : ErrorWithStatus) :
    (errorHandler true err).success = false ∧
    (errorHandler true err).error = err.message ∧
    (errorHandler true err).stack = err.stack :=
  ⟨rfl, rfl, rfl⟩

/-- C6: whenever the evaluator allows a request origin, the CORS
configuration in force advertises credential sharing and permits exactly
the methods GET, POST, PUT, DELETE, PATCH, OPTIONS and exactly the
headers Content-Type and Authorization; these options are static fields
of the `cors({...})` call, independent of the request. -/
theorem C6_corsOptions_of_allow (isDev : Bool) (env : Option String)
    (origin : Option String) (h : corsOriginDecide isDev env origin = true) :
    corsConfigOptions.credentials = true ∧
    corsConfigOptions.methods = ["GET", "POST", "PUT", "DELETE", "PATCH", "OPTIONS"] ∧
    corsConfigOptions.allowedHeaders = ["Content-Type", "Authorization"] :=
  ⟨rfl, rfl, rfl⟩

/-- Witness for C6 at a concrete allowed request (development mode). -/
theorem C6_witness :
    corsOriginDecide true none (some "https://a.com") = true ∧
    (corsConfigOptions.credentials = true ∧
     corsConfigOptions.methods = ["GET", "POST", "PUT", "DELETE", "PATCH", "OPTIONS"] ∧
     corsConfigOptions.allowedHeaders = ["Content-Type", "Authorization"]) :=
  ⟨by decide, C6_corsOptions_of_allow true none (some "https://a.com") (by decide)⟩

/-- C7: for every enumeration of network interfaces, `getNetworkAddress`
returns the address of the first non-internal IPv4 entry in enumeration
order (the first match of the flattened interface lists), and the literal
string localhost when no such entry exists; the function is total, so
there is no failure path. -/
theorem C7_getNetworkAddress_first (interfaces : List (String × List NetworkInterfaceInfo)) :
    getNetworkAddress interfaces =
      (((interfaces.map Prod.snd).flatten.find? isExternalIPv4).map
        (fun net => net.address)).getD "localhost" := by
  rw [getNetworkAddress, scanIfaces_eq_find]

/-- C8: for every request to the health endpoint, the handler returns
status 200 with a body whose status field is ok, whose uptime is the
non-negative live process uptime, and whose timestamp is the ISO-8601
rendering of the current date, which parses back as a valid date.  The
hypotheses are the Node runtime guarantees: `process.uptime()` is
non-negative and `new Date()` is a date in printable range. -/
theorem C8_health_response (now : JsDateTime) (uptime : ℚ)
    (hnow : now.InRange) (hup : 0 ≤ uptime) :
    (healthHandler now uptime).1 = 200 ∧
    (healthHandler now uptime).2.status = "ok" ∧
    0 ≤ (healthHandler now uptime).2.uptime ∧
    parseISODate ((healthHandler now uptime).2.timestamp) = some now :=
  ⟨rfl, rfl, hup, parseISODate_toISOString now hnow⟩

/-- Witness for C8 at a concrete clock reading. -/
theorem C8_witness :
    (healthHandler ⟨2026, 10, 11, 7, 30, 0, 0⟩ 5).1 = 200 ∧
    (healthHandler ⟨2026, 10, 11, 7, 30, 0, 0⟩ 5).2.status = "ok" ∧
    0 ≤ (healthHandler ⟨2026, 10, 11, 7, 30, 0, 0⟩ 5).2.uptime ∧
    parseISODate ((healthHandler ⟨2026, 10, 11, 7, 30, 0, 0⟩ 5).2.timestamp) =
      some ⟨2026, 10, 11, 7, 30, 0, 0⟩ :=
  C8_health_response ⟨2026, 10, 11, 7, 30, 0, 0⟩ 5 (by decide) (by norm_num)

/-- C9: the failure signaled on a CORS denial is a plain Error carrying
no status and no statusCode field, so the error handler resolves its
status to 500 in every mode, and in production the body is success
`false` with the generic error string. -/
theorem C9_corsDenial_answered_500 (stack : Option String) (isDev : Bool) :
    (corsDenialFailure stack).status = none ∧
    (corsDenialFailure stack).statusCode = none ∧
    (errorHandler isDev (corsDenialFailure stack)).status = 500 ∧
    (errorHandler false (corsDenialFailure stack)).success = false ∧
    (errorHandler false (corsDenialFailure stack)).error = "Internal server error" :=
  ⟨rfl, rfl, rfl, rfl, rfl⟩

/-- C10: in production mode, any two failures with the same resolved
status code get literally identical responses: the body never depends on
the message or the stack of the failure. -/
theorem C10_production_noninterference (e1 e2 : ErrorWithStatus)
    (h : resolveStatus e1 = resolveStatus e2) :
    errorHandler false e1 = errorHandler false e2 := by
  simp [errorHandler, h]

/-- Witness for C10 at two concrete failures that differ in message,
stack and in which field carries the status, but resolve to 404. -/
theorem C10_witness :
    errorHandler false ⟨"A", some "traceA", some 404, none⟩ =
      errorHandler false ⟨"B", none, none, some 404⟩ :=
  C10_production_noninterference ⟨"A", some "traceA", some 404, none⟩
    ⟨"B", none, none, some 404⟩ (by decide)
